import Mathlib

set_option maxRecDepth 20000
set_option maxHeartbeats 1000000

/-!
Shallow embedding of the `fundamentals-python` coursework repository:
the energy-metering report script `TaskF/task_f.py` and the reservation
scripts `TaskC/task_c.py`, `TaskG/task_g_dict.py`, `TaskG/task_g_class.py`.

Numbers that Python holds as `float` are modelled as rationals (`ℚ`);
where a concrete Python float literal matters, the rational used is the
exact IEEE-754 double denoted by the literal.  Interactive inputs
(`input()` prompts) are modelled as function parameters.  File contents
are modelled as the already-split table a `csv.DictReader` sees, plus the
raw character stream where delimiter detection needs it.
-/

/-- Calendar date, as Python `datetime.date`: year, month, day. -/
structure Date where
  year : Nat
  month : Nat
  day : Nat
deriving DecidableEq

/-- Timestamp with second precision, as a naive `datetime.datetime`. -/
structure DateTime where
  year : Nat
  month : Nat
  day : Nat
  hour : Nat
  minute : Nat
  second : Nat
deriving DecidableEq

/-- The `date()` method of a `datetime`: drop the time-of-day part. -/
def DateTime.date (t : DateTime) : Date := ⟨t.year, t.month, t.day⟩

/-- Python `date` comparison: lexicographic on (year, month, day). -/
def Date.lt (a b : Date) : Bool :=
  decide (a.year < b.year) ||
    (decide (a.year = b.year) && (decide (a.month < b.month) ||
      (decide (a.month = b.month) && decide (a.day < b.day))))

/-- Gregorian leap-year test, as in `datetime`. -/
def isLeap (y : Nat) : Bool := y % 4 == 0 && (y % 100 != 0 || y % 400 == 0)

/-- Number of days in month `m` of year `y` (0 for out-of-range `m`). -/
def daysInMonth (y m : Nat) : Nat :=
  [31, if isLeap y then 29 else 28, 31, 30, 31, 30, 31, 31, 30, 31, 30, 31].getD (m - 1) 0

/-- Days in year `y` before the first of month `m`. -/
def daysBeforeMonth (y m : Nat) : Nat :=
  ((List.range' 1 (m - 1)).map (daysInMonth y)).sum

/-- Days before January 1 of year `y` in the proleptic Gregorian calendar. -/
def daysBeforeYear (y : Nat) : Nat :=
  (y - 1) * 365 + (y - 1) / 4 - (y - 1) / 100 + (y - 1) / 400

/-- Python `date.toordinal`: day count with 0001-01-01 as day 1. -/
def Date.toordinal (d : Date) : Nat :=
  daysBeforeYear d.year + daysBeforeMonth d.year d.month + d.day

/-- Helper for `Date.fromordinal`: walk the month lengths of year `y` to turn
a 0-based day-of-year into a (month, day) pair. -/
def monthScan : List Nat → Nat → Nat → Nat × Nat
  | [], _, rem => (12, rem + 1)
  | m :: ms, y, rem =>
      if rem < daysInMonth y m then (m, rem + 1) else monthScan ms y (rem - daysInMonth y m)

/-- Python `date.fromordinal` via the 400/100/4/1-year cycle decomposition
used by CPython, with a month scan for the final (month, day) split. -/
def Date.fromordinal (n : Nat) : Date :=
  let n0 := n - 1
  let n400 := n0 / 146097
  let r400 := n0 % 146097
  let n100 := r400 / 36524
  let r100 := r400 % 36524
  let n4 := r100 / 1461
  let r4 := r100 % 1461
  let n1 := r4 / 365
  let r1 := r4 % 365
  let y := n400 * 400 + n100 * 100 + n4 * 4 + n1 + 1
  if n1 = 4 || n100 = 4 then ⟨y - 1, 12, 31⟩
  else
    let md := monthScan [1, 2, 3, 4, 5, 6, 7, 8, 9, 10, 11, 12] y r1
    ⟨y, md.1, md.2⟩

/-- One hourly measurement row from the CSV file (`Measurement` dataclass). -/
structure Measurement where
  timestamp : DateTime
  consumption_kwh : ℚ
  production_kwh : ℚ
  temperature_c : ℚ
deriving DecidableEq

/-- Decimal digits of `n`, least significant first; `fuel` bounds the
recursion and `n + 1` steps always suffice. -/
def natDigitsRevAux : Nat → Nat → List Char
  | _, 0 => []
  | n, fuel + 1 =>
      if n < 10 then [Nat.digitChar n] else Nat.digitChar (n % 10) :: natDigitsRevAux (n / 10) fuel

/-- Decimal rendering of a natural number, as Python prints an `int`. -/
def natDecimal (n : Nat) : String := String.mk (natDigitsRevAux n (n + 1)).reverse

/-- Round a rational to the nearest integer with ties to even, which is how
`"%.2f"` formatting rounds the exact value of a float. -/
def roundHalfEven (q : ℚ) : ℤ :=
  let f := ⌊q⌋
  let r := q - f
  if r < 1 / 2 then f
  else if 1 / 2 < r then f + 1
  else if f % 2 = 0 then f else f + 1

/-- `format_float_fi` from task_f.py: format with two decimals, then turn the
decimal point into a Finnish decimal comma. -/
def format_float_fi (q : ℚ) : String :=
  let n := (roundHalfEven (|q| * 100)).toNat
  (if q < 0 then "-" else "") ++ natDecimal (n / 100) ++ "," ++
    String.mk [Nat.digitChar (n / 10 % 10), Nat.digitChar (n % 10)]

/-- `format_date_fi` from task_f.py: `d.m.yyyy` without zero padding. -/
def format_date_fi (d : Date) : String :=
  natDecimal d.day ++ "." ++ natDecimal d.month ++ "." ++ natDecimal d.year

/-- Arithmetic mean with the `if temps else 0.0` guard the reports use. -/
def flatMean (l : List ℚ) : ℚ := if l = [] then 0 else l.sum / l.length

/-- One `daily.setdefault(d, []).append(m)` step on an insertion-ordered
association list (Python dicts preserve insertion order). -/
def insertDaily (idx : List (Date × List Measurement)) (d : Date) (m : Measurement) :
    List (Date × List Measurement) :=
  match idx with
  | [] => [(d, [m])]
  | (e, l) :: rest => if e = d then (e, l ++ [m]) :: rest else (e, l) :: insertDaily rest d m

/-- `build_daily_index` from task_f.py: group measurements by the date part
of their timestamp, in input order. -/
def build_daily_index (rows : List Measurement) : List (Date × List Measurement) :=
  rows.foldl (fun idx m => insertDaily idx m.timestamp.date m) []

/-- `daily.get(d, [])` on the daily index. -/
def lookupDay : List (Date × List Measurement) → Date → List Measurement
  | [], _ => []
  | (k, l) :: rest, d => if k = d then l else lookupDay rest d

/-- The 53-dash divider line every report starts with. -/
def dividerLine : String := String.mk (List.replicate 53 '-')

/-- The `if end < start: start, end = end, start` swap in the range report. -/
def swapPair (a b : Date) : Date × Date := if Date.lt b a then (b, a) else (a, b)

/-- The calendar days the range-report loop visits, from `start` to `end_`
inclusive, stepping through ordinals as the source loop does. -/
def spanDays (start end_ : Date) : List Date :=
  (List.range' start.toordinal (end_.toordinal + 1 - start.toordinal)).map Date.fromordinal

/-- The accumulation loop of `create_daily_report`: walk the days of the
span, keeping running consumption and production totals and the list of
individual temperature readings. -/
def rangeAccum (daily : List (Date × List Measurement)) :
    List Date → ℚ × ℚ × List ℚ → ℚ × ℚ × List ℚ
  | [], acc => acc
  | d :: ds, acc =>
      let rows := lookupDay daily d
      rangeAccum daily ds
        (acc.1 + (rows.map (·.consumption_kwh)).sum,
         acc.2.1 + (rows.map (·.production_kwh)).sum,
         acc.2.2 ++ rows.map (·.temperature_c))

/-- `create_daily_report` from task_f.py, with the interactively entered
start and end dates as parameters. -/
def create_daily_report (daily : List (Date × List Measurement)) (start end_ : Date) :
    List String :=
  let p := swapPair start end_
  let acc := rangeAccum daily (spanDays p.1 p.2) (0, 0, [])
  let avg_temp := flatMean acc.2.2
  [dividerLine,
   "Report for the period " ++ format_date_fi p.1 ++ "–" ++ format_date_fi p.2,
   "- Total consumption: " ++ format_float_fi acc.1 ++ " kWh",
   "- Total production: " ++ format_float_fi acc.2.1 ++ " kWh",
   "- Average temperature: " ++ format_float_fi avg_temp ++ " °C"]

/-- `month_name_en` from task_f.py. -/
def month_name_en (m : Nat) : String :=
  ["January", "February", "March", "April", "May", "June", "July", "August",
   "September", "October", "November", "December"].getD (m - 1) ""

/-- A day's own average temperature, with the `if rows else 0.0` guard
(line 213 of task_f.py). -/
def dayTempMean (rows : List Measurement) : ℚ :=
  if rows = [] then 0 else (rows.map (·.temperature_c)).sum / rows.length

/-- The accumulation loop of `create_monthly_report`: for each index day in
month `month` of 2025, add the day's consumption and production sums and
append the day's average temperature. -/
def monthlyAccum (month : Nat) :
    List (Date × List Measurement) → ℚ × ℚ × List ℚ → ℚ × ℚ × List ℚ
  | [], acc => acc
  | p :: rest, acc =>
      if p.1.year = 2025 ∧ p.1.month = month then
        monthlyAccum month rest
          (acc.1 + (p.2.map (·.consumption_kwh)).sum,
           acc.2.1 + (p.2.map (·.production_kwh)).sum,
           acc.2.2 ++ [dayTempMean p.2])
      else monthlyAccum month rest acc

/-- `create_monthly_report` from task_f.py, with the interactively entered
month number as a parameter. -/
def create_monthly_report (daily : List (Date × List Measurement)) (month : Nat) :
    List String :=
  let acc := monthlyAccum month daily (0, 0, [])
  let avg := flatMean acc.2.2
  [dividerLine,
   "Report for the month: " ++ month_name_en month,
   "- Total consumption: " ++ format_float_fi acc.1 ++ " kWh",
   "- Total production: " ++ format_float_fi acc.2.1 ++ " kWh",
   "- Average temperature: " ++ format_float_fi avg ++ " °C"]

/-- `create_yearly_report` from task_f.py. -/
def create_yearly_report (rows : List Measurement) : List String :=
  let yr := rows.filter (fun m => decide (m.timestamp.year = 2025))
  [dividerLine,
   "Report for the year: 2025",
   "- Total consumption: " ++ format_float_fi ((yr.map (·.consumption_kwh)).sum) ++ " kWh",
   "- Total production: " ++ format_float_fi ((yr.map (·.production_kwh)).sum) ++ " kWh",
   "- Average temperature: " ++ format_float_fi (flatMean (yr.map (·.temperature_c))) ++ " °C"]

/-- Specification-side helper: the index days falling in month `m` of the
dataset year 2025 (the month report's qualifying days). -/
def qualifyingDays (daily : List (Date × List Measurement)) (m : Nat) :
    List (Date × List Measurement) :=
  daily.filter (fun p => decide (p.1.year = 2025 ∧ p.1.month = m))

/-- Specification-side definition, following the spec's words: the month
report's temperature metric as the mean of per-day means. -/
def specMonthAvgTemp (daily : List (Date × List Measurement)) (m : Nat) : ℚ :=
  flatMean ((qualifyingDays daily m).map (fun p => dayTempMean p.2))

/-- Specification-side definition: total consumption as a flat sum over all
measurements of the qualifying days. -/
def specMonthTotalCons (daily : List (Date × List Measurement)) (m : Nat) : ℚ :=
  ((((qualifyingDays daily m).map Prod.snd).flatten).map (·.consumption_kwh)).sum

/-- Specification-side definition: total production as a flat sum over all
measurements of the qualifying days. -/
def specMonthTotalProd (daily : List (Date × List Measurement)) (m : Nat) : ℚ :=
  ((((qualifyingDays daily m).map Prod.snd).flatten).map (·.production_kwh)).sum

/-- A measurement of the two-day synthetic dataset used by the spec's
month-report example: day `d` of January 2025 at hour `hh`, temperature `t`. -/
def exM (d : Nat) (t : ℚ) (hh : Nat) : Measurement := ⟨⟨2025, 1, d, hh, 0, 0⟩, 0, 0, t⟩

/-- The spec's synthetic dataset: one day with a single 10-degree reading and
one day with three 0-degree readings. -/
def exMonthRows : List Measurement := [exM 1 10 0, exM 2 0 0, exM 2 0 1, exM 2 0 2]

/-- A delimited file after splitting, as `csv.DictReader` sees it: the header
fieldnames and the data records. -/
structure CsvTable where
  fieldnames : List String
  records : List (List String)

/-- The two failure modes of `read_data`: `FileNotFoundError` and the
`ValueError`s raised during header resolution and row parsing. -/
inductive ReadErr where
  | fileNotFound
  | valueError
deriving DecidableEq

/-- Delimiter auto-detection (task_f.py lines 47-49), on the raw file text:
count `;` versus `,` in the first 2000 characters, ties favouring `;`. -/
def detect_delimiter (text : List Char) : Char :=
  if (text.take 2000).count ';' ≥ (text.take 2000).count ',' then ';' else ','

/-- The whitespace characters `str.strip()` removes (ASCII subset). -/
def pyWhitespace (c : Char) : Bool :=
  c = ' ' || c = '\t' || c = '\n' || c = '\r' || c = Char.ofNat 11 || c = Char.ofNat 12

/-- Python `str.strip()`. -/
def stripStr (s : String) : String :=
  String.mk ((s.toList.dropWhile pyWhitespace).reverse.dropWhile pyWhitespace).reverse

/-- Python `str.lower()` (ASCII case folding, which covers the headers and
candidate names this program compares). -/
def lowerStr (s : String) : String := String.mk (s.toList.map Char.toLower)

/-- Whether `pat` occurs at the head of `s`. -/
def beginsWith : List Char → List Char → Bool
  | [], _ => true
  | _ :: _, [] => false
  | p :: ps, c :: cs => p == c && beginsWith ps cs

/-- Python's `pat in s` substring test. -/
def containsSub (pat : List Char) : List Char → Bool
  | [] => beginsWith pat []
  | c :: cs => beginsWith pat (c :: cs) || containsSub pat cs

/-- `find_col` from read_data: first a case-insensitive exact-name pass over
the normalized header names, then a case-insensitive substring fallback;
`none` models the `ValueError` it raises. -/
def find_col (normalized : List String) (candidates : List String) : Option String :=
  match candidates.findSome? (fun cand => normalized.find? (fun fn => lowerStr fn == lowerStr cand)) with
  | some fn => some fn
  | none =>
      candidates.findSome? (fun cand =>
        normalized.find? (fun fn => containsSub (lowerStr cand).toList (lowerStr fn).toList))

/-- Candidate header names for the timestamp column (task_f.py line 73). -/
def timeCandidates : List String := ["timestamp", "aika", "time"]

/-- Candidate header names for the consumption column (line 74). -/
def consCandidates : List String :=
  ["consumption", "kulutus", "consumption (net) in kwh", "consumption_kwh"]

/-- Candidate header names for the production column (line 75). -/
def prodCandidates : List String :=
  ["production", "tuotanto", "production (net) in kwh", "production_kwh"]

/-- Candidate header names for the temperature column (line 76). -/
def tempCandidates : List String :=
  ["temperature", "avg temperature", "daily average temperature", "lampotila", "lämpötila", "temp"]

/-- Resolution of the four required columns, in the order read_data attempts
them; `none` models the first failing `find_col` raising. -/
def resolveCols (normalized : List String) : Option (String × String × String × String) := do
  let t ← find_col normalized timeCandidates
  let c ← find_col normalized consCandidates
  let p ← find_col normalized prodCandidates
  let tp ← find_col normalized tempCandidates
  pure (t, c, p, tp)

/-- The dict `csv.DictReader` builds for one record: fieldnames zipped with
the row's cells, missing cells filled with the restval `None` and surplus
cells dropped. -/
def rowDict (fieldnames : List String) (r : List String) : List (String × Option String) :=
  fieldnames.zip (r.map some ++ List.replicate (fieldnames.length - r.length) none)

/-- Lookup in a Python dict built by sequential assignment: the last binding
of a key wins. -/
def lookupLast : List (String × Option String) → String → Option (Option String)
  | [], _ => none
  | (k, v) :: rest, col =>
      match lookupLast rest col with
      | some v2 => some v2
      | none => if k = col then some v else none

/-- `row.get(col)`: `none` when the key is absent, `some none` when the cell
was filled with the restval `None`. -/
def rowGet (fieldnames : List String) (r : List String) (col : String) :
    Option (Option String) :=
  lookupLast (rowDict fieldnames r) col

/-- Digit value of a decimal digit character. -/
def digitVal (c : Char) : Nat := c.toNat - 48

/-- Value of a big-endian list of decimal digit characters. -/
def natOfDigits (l : List Char) : Nat := l.foldl (fun a c => a * 10 + digitVal c) 0

/-- Split a list at the first occurrence of `c`; `none` when `c` is absent. -/
def splitOnce (c : Char) : List Char → Option (List Char × List Char)
  | [] => none
  | x :: xs => if x = c then some ([], xs) else (splitOnce c xs).map (fun p => (x :: p.1, p.2))

/-- Unsigned decimal mantissa: digits with at most one point and at least one
digit, as `float()` accepts. -/
def parseUnsigned (l : List Char) : Option ℚ :=
  match splitOnce '.' l with
  | none => if !l.isEmpty && l.all Char.isDigit then some (natOfDigits l) else none
  | some (a, b) =>
      if !(a ++ b).isEmpty && a.all Char.isDigit && b.all Char.isDigit then
        some (natOfDigits a + natOfDigits b / 10 ^ b.length)
      else none

/-- Mantissa with an optional sign. -/
def signedMantissa (l : List Char) : Option ℚ :=
  match l with
  | '+' :: rest => parseUnsigned rest
  | '-' :: rest => (parseUnsigned rest).map (fun q => -q)
  | _ => parseUnsigned l

/-- Optionally signed integer exponent. -/
def signedInt (l : List Char) : Option ℤ :=
  match l with
  | '+' :: rest => if !rest.isEmpty && rest.all Char.isDigit then some (natOfDigits rest) else none
  | '-' :: rest =>
      if !rest.isEmpty && rest.all Char.isDigit then some (-(natOfDigits rest : ℤ)) else none
  | _ => if !l.isEmpty && l.all Char.isDigit then some (natOfDigits l) else none

/-- Models Python `float()` on decimal literals with optional sign, fraction
part and exponent; the special spellings (`inf`, `nan`, underscores) are not
modelled because nothing in this development feeds them to it.  `none`
models the `ValueError` float() raises on anything else, such as `""` or
`"None"`. -/
def pyFloat (l0 : List Char) : Option ℚ :=
  let l := l0.map (fun c => if c = 'E' then 'e' else c)
  match splitOnce 'e' l with
  | none => signedMantissa l
  | some (m, ex) => do
      let q ← signedMantissa m
      let e ← signedInt ex
      pure (q * (10 : ℚ) ^ e)

/-- `parse_float_fi` from task_f.py: strip, turn a Finnish decimal comma into
a point, then convert as `float()` does. -/
def parse_float_fi (s : String) : Option ℚ :=
  pyFloat ((stripStr s).toList.map (fun c => if c = ',' then '.' else c))

/-- Validity checks of the `datetime` constructor. -/
def mkValidDateTime (y mo d h mi s : Nat) : Option DateTime :=
  if 1 ≤ y && y ≤ 9999 && 1 ≤ mo && mo ≤ 12 && 1 ≤ d && d ≤ daysInMonth y mo &&
      h ≤ 23 && mi ≤ 59 && s ≤ 59 then
    some ⟨y, mo, d, h, mi, s⟩
  else none

/-- Models `datetime.fromisoformat` on the shapes this program's data uses: a
`YYYY-MM-DD` date, optionally followed by a one-character separator and
`HH:MM:SS`; `none` models the `ValueError` it raises otherwise. -/
def parseIso (s : String) : Option DateTime :=
  match s.toList with
  | [a, b, c, d, '-', e, f, '-', g, h] =>
      if [a, b, c, d, e, f, g, h].all Char.isDigit then
        mkValidDateTime (natOfDigits [a, b, c, d]) (natOfDigits [e, f]) (natOfDigits [g, h]) 0 0 0
      else none
  | [a, b, c, d, '-', e, f, '-', g, h, _, i, j, ':', k, l, ':', m, n] =>
      if [a, b, c, d, e, f, g, h, i, j, k, l, m, n].all Char.isDigit then
        mkValidDateTime (natOfDigits [a, b, c, d]) (natOfDigits [e, f]) (natOfDigits [g, h])
          (natOfDigits [i, j]) (natOfDigits [k, l]) (natOfDigits [m, n])
      else none
  | _ => none

/-- The timestamp cell of a record: `(row.get(col_time) or "").strip()`. -/
def timeCellStr (fieldnames : List String) (colTime : String) (r : List String) : String :=
  stripStr
    (match rowGet fieldnames r colTime with
     | some (some s) => s
     | _ => "")

/-- A numeric cell of a record: `str(row.get(col, "0"))`, so `"0"` when the
key is absent and `"None"` when the cell holds the restval `None`. -/
def numCellStr (fieldnames : List String) (col : String) (r : List String) : String :=
  match rowGet fieldnames r col with
  | none => "0"
  | some none => "None"
  | some (some s) => s

/-- The row loop of read_data (lines 78-90): skip records whose timestamp
cell strips to empty, parse the timestamp and the three numeric cells, and
collect measurements in file order; the first raised `ValueError` aborts. -/
def processRows (fieldnames : List String) (cols : String × String × String × String) :
    List (List String) → Except ReadErr (List Measurement)
  | [] => .ok []
  | r :: rest =>
      let timeStr := timeCellStr fieldnames cols.1 r
      if timeStr = "" then processRows fieldnames cols rest
      else
        match parseIso timeStr with
        | none => .error .valueError
        | some ts =>
            match parse_float_fi (numCellStr fieldnames cols.2.1 r),
                parse_float_fi (numCellStr fieldnames cols.2.2.1 r),
                parse_float_fi (numCellStr fieldnames cols.2.2.2 r) with
            | some cons, some prod, some temp =>
                match processRows fieldnames cols rest with
                | .ok ms => .ok (⟨ts, cons, prod, temp⟩ :: ms)
                | .error err => .error err
            | _, _, _ => .error .valueError

/-- `read_data` from task_f.py over the split table (`none` models a missing
file): resolve the four columns from the stripped header names, run the row
loop, and reject an empty result. -/
def read_data : Option CsvTable → Except ReadErr (List Measurement)
  | none => .error .fileNotFound
  | some t =>
      match resolveCols (t.fieldnames.map stripStr) with
      | none => .error .valueError
      | some cols =>
          match processRows t.fieldnames cols t.records with
          | .error e => .error e
          | .ok ms => if ms = [] then .error .valueError else .ok ms

/-- Time of day as `datetime.time` with minute precision, as the reservation
files use. -/
structure TimeOfDay where
  hour : Nat
  minute : Nat
deriving DecidableEq

/-- One reservation row, with the fields and types all three reservation
scripts parse (list indices in task_c.py, dict keys in task_g_dict.py, the
`Reservation` dataclass in task_g_class.py). -/
structure Reservation where
  reservation_id : ℤ
  name : String
  email : String
  phone : String
  date : Date
  time : TimeOfDay
  duration : ℤ
  price : ℚ
  confirmed : Bool
  resource : String
  created : DateTime
deriving DecidableEq

/-- `long_reservations` from task_c.py, modelled as the list of reservations
its loop prints: those with `duration >= 3`. -/
def taskC_long_reservations (rs : List Reservation) : List Reservation :=
  rs.filter (fun r => decide (3 ≤ r.duration))

/-- `long_reservations` from task_g_dict.py, modelled as the list of
reservations its loop prints: those with `duration > 3`. -/
def taskG_dict_long_reservations (rs : List Reservation) : List Reservation :=
  rs.filter (fun r => decide (3 < r.duration))

/-- `long_reservations` from task_g_class.py, modelled as the list of
reservations its loop prints: those with `duration > 3`. -/
def taskG_class_long_reservations (rs : List Reservation) : List Reservation :=
  rs.filter (fun r => decide (3 < r.duration))

/-- The section header task_c.py's main prints above its long-reservation
list (line 147). -/
def taskC_long_header : String := "2) Long Reservations (>= 3 h)"

/-- The section header task_g_dict.py's main prints above its
long-reservation list (line 102). -/
def taskG_dict_long_header : String := "2) Long Reservations (>= 3 h)"

/-- The section header task_g_class.py's main prints above its
long-reservation list (line 128). -/
def taskG_class_long_header : String := "2) Long Reservations (>= 3 h)"

/-- A reservation of exactly three hours, the boundary case on which the
task_c and task_g duration filters disagree. -/
def res3 : Reservation :=
  ⟨1, "Alice", "alice@example.com", "040123", ⟨2025, 1, 1⟩, ⟨10, 0⟩, 3, 25, true, "Sauna",
   ⟨2025, 1, 1, 9, 0, 0⟩⟩

/-- The exact IEEE-754 double denoted by the Python literal `12.345`:
6949617174986097 / 2⁴⁹, slightly above 12.345. -/
def pyLit12_345 : ℚ := mkRat 6949617174986097 562949953421312

theorem date_lt_asymm {a b : Date} (h1 : Date.lt a b = true) (h2 : Date.lt b a = true) :
    False := by
  cases a; cases b
  simp only [Date.lt, Bool.or_eq_true, Bool.and_eq_true, decide_eq_true_eq] at h1 h2
  omega

theorem date_eq_of_not_lt {a b : Date} (h1 : Date.lt a b = false) (h2 : Date.lt b a = false) :
    a = b := by
  cases a; cases b
  simp only [Date.lt, Bool.or_eq_false_iff, Bool.and_eq_false_iff, decide_eq_false_iff_not,
    Bool.or_eq_true, Bool.and_eq_true, decide_eq_true_eq, not_lt] at h1 h2
  simp only [Date.mk.injEq]
  omega

theorem swapPair_comm (a b : Date) : swapPair a b = swapPair b a := by
  unfold swapPair
  cases hba : Date.lt b a with
  | false =>
      cases hab : Date.lt a b with
      | false => have h := date_eq_of_not_lt hab hba; subst h; simp
      | true => simp
  | true =>
      cases hab : Date.lt a b with
      | false => simp
      | true => exact (date_lt_asymm hab hba).elim

/-- C2: for every pair of dates and every daily index, the range report built
for (a, b) is line-for-line identical to the range report built for (b, a),
because when the end date precedes the start date the two are swapped before
use (never an error), so the divider, title and all three metric lines
coincide. -/
theorem create_daily_report_swap_symmetric (daily : List (Date × List Measurement))
    (a b : Date) : create_daily_report daily a b = create_daily_report daily b a := by
  unfold create_daily_report
  rw [swapPair_comm]

/-- C5: read_data selects the delimiter by counting `;` and `,` in the first
2000 characters and taking the more frequent one, ties resolving to `;`:
strictly more commas give `,`, an equal count gives `;`, and strictly more
semicolons give `;`. -/
theorem detect_delimiter_counts (text : List Char) :
    ((text.take 2000).count ';' < (text.take 2000).count ',' →
      detect_delimiter text = ',') ∧
    ((text.take 2000).count ';' = (text.take 2000).count ',' →
      detect_delimiter text = ';') ∧
    ((text.take 2000).count ',' < (text.take 2000).count ';' →
      detect_delimiter text = ';') := by
  refine ⟨fun h => ?_, fun h => ?_, fun h => ?_⟩
  · unfold detect_delimiter
    rw [if_neg]
    omega
  · unfold detect_delimiter
    rw [if_pos]
    omega
  · unfold detect_delimiter
    rw [if_pos]
    omega

theorem detect_delimiter_counts_witness :
    ("a,b,c;d".toList.take 2000).count ';' < ("a,b,c;d".toList.take 2000).count ',' ∧
    detect_delimiter "a,b,c;d".toList = ',' ∧
    ("a,;b".toList.take 2000).count ';' = ("a,;b".toList.take 2000).count ',' ∧
    detect_delimiter "a,;b".toList = ';' :=
  ⟨by decide, (detect_delimiter_counts "a,b,c;d".toList).1 (by decide), by decide,
   (detect_delimiter_counts "a,;b".toList).2.1 (by decide)⟩

/-- C8: TaskC's long_reservations keeps duration >= 3 while both TaskG
variants keep duration > 3, all three under the same "(>= 3 h)" header, so a
reservation of exactly 3 hours is printed by TaskC and dropped by TaskG. -/
theorem long_reservations_threshold_disagreement :
    taskC_long_header = "2) Long Reservations (>= 3 h)" ∧
    taskG_dict_long_header = "2) Long Reservations (>= 3 h)" ∧
    taskG_class_long_header = "2) Long Reservations (>= 3 h)" ∧
    (∀ rs : List Reservation, taskG_dict_long_reservations rs = taskG_class_long_reservations rs) ∧
    taskC_long_reservations [res3] = [res3] ∧
    taskG_dict_long_reservations [res3] = [] ∧
    taskG_class_long_reservations [res3] = [] ∧
    (∀ (r : Reservation) (rs : List Reservation), r.duration = 3 → r ∈ rs →
      r ∈ taskC_long_reservations rs ∧ r ∉ taskG_dict_long_reservations rs) := by
  refine ⟨rfl, rfl, rfl, fun rs => rfl, by with_unfolding_all decide,
    by with_unfolding_all decide, by with_unfolding_all decide, ?_⟩
  intro r rs h3 hmem
  constructor
  · exact List.mem_filter.mpr ⟨hmem, by simp [h3]⟩
  · intro hcontra
    have h := (List.mem_filter.mp hcontra).2
    simp [h3] at h

theorem long_reservations_threshold_disagreement_witness :
    res3 ∈ taskC_long_reservations [res3] ∧ res3 ∉ taskG_dict_long_reservations [res3] :=
  long_reservations_threshold_disagreement.2.2.2.2.2.2.2 res3 [res3] rfl
    (List.mem_singleton.mpr rfl)

/-- C4 (code evidence): read_data does not default a missing numeric cell to
zero.  An empty consumption cell reaches `float("")`, and a short row's cells
are filled with the restval `None` so `str(row.get(col, "0"))` yields
`"None"`; both raise `ValueError` and abort the load instead of producing a
Measurement. -/
theorem read_data_missing_numeric_cell_aborts :
    read_data (some ⟨["timestamp", "consumption", "production", "temperature"],
        [["2025-01-01T00:00:00", "", "5", "3,0"]]⟩) = Except.error ReadErr.valueError ∧
    read_data (some ⟨["timestamp", "consumption", "production", "temperature"],
        [["2025-01-01T00:00:00", "1"]]⟩) = Except.error ReadErr.valueError ∧
    parse_float_fi "" = none ∧ parse_float_fi "None" = none := by
  refine ⟨by with_unfolding_all rfl, by with_unfolding_all rfl, rfl, rfl⟩

theorem digitChar_ne_comma : ∀ n : Nat, Nat.digitChar n ≠ ','
  | 0 => by decide
  | 1 => by decide
  | 2 => by decide
  | 3 => by decide
  | 4 => by decide
  | 5 => by decide
  | 6 => by decide
  | 7 => by decide
  | 8 => by decide
  | 9 => by decide
  | 10 => by decide
  | 11 => by decide
  | 12 => by decide
  | 13 => by decide
  | 14 => by decide
  | 15 => by decide
  | (n + 16) => by
      intro h
      unfold Nat.digitChar at h
      iterate 16 rw [if_neg (by omega)] at h
      exact absurd h (by decide)

theorem comma_not_mem_natDigitsRevAux (fuel n : Nat) : ',' ∉ natDigitsRevAux n fuel := by
  induction fuel generalizing n with
  | zero => simp [natDigitsRevAux]
  | succ k ih =>
      unfold natDigitsRevAux
      split
      · intro h
        simp only [List.mem_singleton] at h
        exact digitChar_ne_comma _ h.symm
      · intro h
        rcases List.mem_cons.mp h with h1 | h2
        · exact digitChar_ne_comma _ h1.symm
        · exact ih _ h2

theorem comma_not_mem_natDecimal (n : Nat) : ',' ∉ (natDecimal n).data := by
  unfold natDecimal
  intro h
  rw [List.mem_reverse] at h
  exact comma_not_mem_natDigitsRevAux _ _ h

/-- C9: format_float_fi always produces an integer part, a comma, and exactly
two further characters, with no other comma anywhere; and it maps the double
of the literal 12.345 to "12,35" and 0.0 to "0,00". -/
theorem format_float_fi_two_decimals :
    (∀ q : ℚ, ∃ s t : String,
        format_float_fi q = s ++ "," ++ t ∧ t.length = 2 ∧ ',' ∉ t.data ∧ ',' ∉ s.data) ∧
    format_float_fi pyLit12_345 = "12,35" ∧ format_float_fi 0 = "0,00" := by
  refine ⟨fun q => ?_, by with_unfolding_all decide, by with_unfolding_all decide⟩
  refine ⟨(if q < 0 then "-" else "") ++
      natDecimal ((roundHalfEven (|q| * 100)).toNat / 100),
    String.mk [Nat.digitChar ((roundHalfEven (|q| * 100)).toNat / 10 % 10),
      Nat.digitChar ((roundHalfEven (|q| * 100)).toNat % 10)], rfl, rfl, ?_, ?_⟩
  · intro h
    rcases List.mem_cons.mp h with h1 | h2
    · exact digitChar_ne_comma _ h1.symm
    · rcases List.mem_singleton.mp h2 with h3
      exact digitChar_ne_comma _ h3.symm
  · intro h
    rw [String.data_append] at h
    rcases List.mem_append.mp h with h1 | h2
    · split at h1
      · exact absurd (List.mem_singleton.mp h1) (by decide)
      · simp at h1
    · exact comma_not_mem_natDecimal _ h2

theorem rangeAccum_all_empty (daily : List (Date × List Measurement)) (days : List Date) :
    ∀ acc : ℚ × ℚ × List ℚ, (∀ d ∈ days, lookupDay daily d = []) →
      rangeAccum daily days acc = acc := by
  induction days with
  | nil => intro acc _; rfl
  | cons d ds ih =>
      intro acc h
      have hd : lookupDay daily d = [] := h d (List.mem_cons_self d ds)
      show rangeAccum daily ds _ = acc
      rw [ih _ (fun e he => h e (List.mem_cons_of_mem d he))]
      rw [hd]
      simp

theorem format_float_fi_zero : format_float_fi 0 = "0,00" := by with_unfolding_all decide

/-- C7: an empty selection yields all-zero metrics with no error: a range
report whose (possibly swapped) span matches no day of the index, and a year
report over zero measurements of 2025, each render total consumption
`0,00 kWh`, total production `0,00 kWh` and average temperature `0,00 °C`
(the empty average is defined as zero instead of dividing by zero). -/
theorem empty_selection_all_zero (daily : List (Date × List Measurement)) (a b : Date)
    (rows : List Measurement)
    (hspan : ∀ d ∈ spanDays (swapPair a b).1 (swapPair a b).2, lookupDay daily d = [])
    (hyear : rows.filter (fun m => decide (m.timestamp.year = 2025)) = []) :
    create_daily_report daily a b =
      [dividerLine,
       "Report for the period " ++ format_date_fi (swapPair a b).1 ++ "–" ++
         format_date_fi (swapPair a b).2,
       "- Total consumption: 0,00 kWh",
       "- Total production: 0,00 kWh",
       "- Average temperature: 0,00 °C"] ∧
    create_yearly_report rows =
      [dividerLine, "Report for the year: 2025", "- Total consumption: 0,00 kWh",
       "- Total production: 0,00 kWh", "- Average temperature: 0,00 °C"] := by
  constructor
  · simp only [create_daily_report]
    rw [rangeAccum_all_empty daily _ _ hspan]
    simp only [List.cons.injEq, and_true, true_and]
    refine ⟨?_, ?_, ?_⟩ <;> with_unfolding_all decide
  · simp only [create_yearly_report]
    rw [hyear]
    with_unfolding_all decide

theorem empty_selection_all_zero_witness :
    create_daily_report [] ⟨2025, 1, 1⟩ ⟨2025, 1, 1⟩ =
      [dividerLine, "Report for the period 1.1.2025–1.1.2025",
       "- Total consumption: 0,00 kWh", "- Total production: 0,00 kWh",
       "- Average temperature: 0,00 °C"] ∧
    create_yearly_report [] =
      [dividerLine, "Report for the year: 2025", "- Total consumption: 0,00 kWh",
       "- Total production: 0,00 kWh", "- Average temperature: 0,00 °C"] := by
  have h := empty_selection_all_zero [] ⟨2025, 1, 1⟩ ⟨2025, 1, 1⟩ [] (fun d _ => rfl) rfl
  exact h

theorem monthlyAccum_spec (month : Nat) (daily : List (Date × List Measurement)) :
    ∀ acc : ℚ × ℚ × List ℚ,
      monthlyAccum month daily acc =
        (acc.1 + ((qualifyingDays daily month).map
            (fun p => (p.2.map (·.consumption_kwh)).sum)).sum,
         acc.2.1 + ((qualifyingDays daily month).map
            (fun p => (p.2.map (·.production_kwh)).sum)).sum,
         acc.2.2 ++ (qualifyingDays daily month).map (fun p => dayTempMean p.2)) := by
  induction daily with
  | nil => intro acc; simp [monthlyAccum, qualifyingDays]
  | cons p rest ih =>
      intro acc
      by_cases hc : p.1.year = 2025 ∧ p.1.month = month
      · have step : monthlyAccum month (p :: rest) acc =
            monthlyAccum month rest
              (acc.1 + (p.2.map (·.consumption_kwh)).sum,
               acc.2.1 + (p.2.map (·.production_kwh)).sum,
               acc.2.2 ++ [dayTempMean p.2]) := by
          simp [monthlyAccum, hc]
        rw [step, ih]
        simp [qualifyingDays, List.filter_cons, hc, add_assoc]
      · have step : monthlyAccum month (p :: rest) acc = monthlyAccum month rest acc := by
          simp [monthlyAccum, hc]
        rw [step, ih]
        simp [qualifyingDays, List.filter_cons, hc]

theorem sum_map_flatten (L : List (List Measurement)) (f : Measurement → ℚ) :
    ((L.flatten).map f).sum = (L.map (fun l => (l.map f).sum)).sum := by
  induction L with
  | nil => simp
  | cons l ls ih => simp [ih, Function.comp_def]

/-- C1: for every month 1..12 and daily index, the month report's average
temperature is the mean of per-day means over the qualifying 2025 days while
the totals are flat sums over all their measurements; on the synthetic
dataset with one 10-degree day and one three-reading 0-degree day the
reported average is 5,00, not the flat mean 2,50. -/
theorem monthly_report_mean_of_day_means (daily : List (Date × List Measurement))
    (month : Nat) (h1 : 1 ≤ month) (h2 : month ≤ 12) :
    create_monthly_report daily month =
      [dividerLine,
       "Report for the month: " ++ month_name_en month,
       "- Total consumption: " ++ format_float_fi (specMonthTotalCons daily month) ++ " kWh",
       "- Total production: " ++ format_float_fi (specMonthTotalProd daily month) ++ " kWh",
       "- Average temperature: " ++ format_float_fi (specMonthAvgTemp daily month) ++ " °C"] ∧
    create_monthly_report (build_daily_index exMonthRows) 1 =
      [dividerLine, "Report for the month: January", "- Total consumption: 0,00 kWh",
       "- Total production: 0,00 kWh", "- Average temperature: 5,00 °C"] ∧
    format_float_fi (flatMean (exMonthRows.map (·.temperature_c))) = "2,50" := by
  refine ⟨?_, by with_unfolding_all decide, by with_unfolding_all decide⟩
  simp only [create_monthly_report]
  rw [monthlyAccum_spec]
  simp only [List.nil_append, zero_add]
  simp [specMonthTotalCons, specMonthTotalProd, specMonthAvgTemp, sum_map_flatten,
    List.map_map, Function.comp_def]

theorem monthly_report_mean_of_day_means_witness :
    create_monthly_report (build_daily_index exMonthRows) 1 =
      [dividerLine,
       "Report for the month: " ++ month_name_en 1,
       "- Total consumption: " ++
         format_float_fi (specMonthTotalCons (build_daily_index exMonthRows) 1) ++ " kWh",
       "- Total production: " ++
         format_float_fi (specMonthTotalProd (build_daily_index exMonthRows) 1) ++ " kWh",
       "- Average temperature: " ++
         format_float_fi (specMonthAvgTemp (build_daily_index exMonthRows) 1) ++ " °C"] :=
  (monthly_report_mean_of_day_means (build_daily_index exMonthRows) 1 (by decide)
    (by decide)).1

theorem lookupDay_insertDaily (idx : List (Date × List Measurement)) (d e : Date)
    (m : Measurement) :
    lookupDay (insertDaily idx d m) e =
      if e = d then lookupDay idx e ++ [m] else lookupDay idx e := by
  induction idx with
  | nil =>
      by_cases h : e = d
      · subst h; simp [insertDaily, lookupDay]
      · have h2 : ¬ (d = e) := fun hh => h hh.symm
        simp [insertDaily, lookupDay, h, h2]
  | cons p rest ih =>
      obtain ⟨k, l⟩ := p
      by_cases hk : k = d
      · subst hk
        simp only [insertDaily, if_pos rfl, lookupDay]
        by_cases he : k = e
        · subst he
          simp [lookupDay]
        · have he2 : ¬ (e = k) := fun hh => he hh.symm
          simp [lookupDay, he, he2]
      · simp only [insertDaily, if_neg hk, lookupDay]
        by_cases he : k = e
        · subst he
          simp [lookupDay, hk]
        · simp [lookupDay, he, ih]

theorem keys_insertDaily (idx : List (Date × List Measurement)) (d : Date) (m : Measurement) :
    (insertDaily idx d m).map Prod.fst =
      if d ∈ idx.map Prod.fst then idx.map Prod.fst else idx.map Prod.fst ++ [d] := by
  induction idx with
  | nil => simp [insertDaily]
  | cons p rest ih =>
      obtain ⟨k, l⟩ := p
      by_cases hk : k = d
      · subst hk
        simp [insertDaily]
      · have hk2 : ¬ (d = k) := fun hh => hk hh.symm
        by_cases hm : d ∈ rest.map Prod.fst
        · simp [insertDaily, hk, ih, hm, hk2]
        · simp [insertDaily, hk, ih, hm, hk2]

theorem flatten_insertDaily (idx : List (Date × List Measurement)) (d : Date)
    (m : Measurement) :
    ((insertDaily idx d m).map Prod.snd).flatten.Perm
      (((idx.map Prod.snd).flatten) ++ [m]) := by
  induction idx with
  | nil => simp [insertDaily]
  | cons p rest ih =>
      obtain ⟨k, l⟩ := p
      by_cases hk : k = d
      · subst hk
        simp only [insertDaily, eq_self_iff_true, if_true, List.map_cons, List.flatten_cons]
        rw [List.append_assoc, List.append_assoc]
        exact List.Perm.append_left l List.perm_append_comm
      · simp only [insertDaily, if_neg hk, List.map_cons, List.flatten_cons]
        rw [List.append_assoc]
        exact List.Perm.append_left l ih

theorem snd_ne_nil_insertDaily (idx : List (Date × List Measurement)) (d : Date)
    (m : Measurement) (h : ∀ p ∈ idx, p.2 ≠ ([] : List Measurement)) :
    ∀ p ∈ insertDaily idx d m, p.2 ≠ ([] : List Measurement) := by
  induction idx with
  | nil =>
      intro p hp
      simp [insertDaily] at hp
      subst hp
      simp
  | cons q rest ih =>
      obtain ⟨k, l⟩ := q
      intro p hp
      by_cases hk : k = d
      · subst hk
        simp only [insertDaily, if_pos rfl] at hp
        rcases List.mem_cons.mp hp with rfl | hmem
        · simp
        · exact h p (List.mem_cons_of_mem _ hmem)
      · simp only [insertDaily, if_neg hk] at hp
        rcases List.mem_cons.mp hp with rfl | hmem
        · exact h (k, l) (List.mem_cons_self _ _)
        · exact ih (fun q hq => h q (List.mem_cons_of_mem _ hq)) p hmem

/-- Invariant tying the daily index being built to the measurements already
processed: buckets are the filters of the processed list, keys are distinct
and exactly the dates seen, the buckets' contents are a permutation of the
processed list, and no bucket is empty. -/
def IndexInv (P : List Measurement) (idx : List (Date × List Measurement)) : Prop :=
  (∀ e : Date, lookupDay idx e = P.filter (fun m => decide (m.timestamp.date = e))) ∧
  (idx.map Prod.fst).Nodup ∧
  (∀ e : Date, e ∈ idx.map Prod.fst ↔ ∃ m ∈ P, m.timestamp.date = e) ∧
  ((idx.map Prod.snd).flatten).Perm P ∧
  (∀ p ∈ idx, p.2 ≠ ([] : List Measurement))

theorem insertDaily_inv (P : List Measurement) (idx : List (Date × List Measurement))
    (m : Measurement) (h : IndexInv P idx) :
    IndexInv (P ++ [m]) (insertDaily idx m.timestamp.date m) := by
  obtain ⟨hl, hnd, hmem, hperm, hne⟩ := h
  refine ⟨?_, ?_, ?_, ?_, ?_⟩
  · intro e
    rw [lookupDay_insertDaily, List.filter_append, hl e]
    by_cases hed : e = m.timestamp.date
    · rw [if_pos hed]
      congr 1
      simp [List.filter, hed]
    · rw [if_neg hed]
      have hnil : List.filter (fun mm => decide (mm.timestamp.date = e)) [m] = [] := by
        have hdec : decide (m.timestamp.date = e) = false :=
          decide_eq_false (fun hh => hed hh.symm)
        simp [List.filter, hdec]
      rw [hnil, List.append_nil]
  · rw [keys_insertDaily]
    by_cases hd : m.timestamp.date ∈ idx.map Prod.fst
    · rw [if_pos hd]; exact hnd
    · rw [if_neg hd]
      simp [List.nodup_append, hnd, hd]
  · intro e
    rw [keys_insertDaily]
    by_cases hd : m.timestamp.date ∈ idx.map Prod.fst
    · rw [if_pos hd, hmem e]
      constructor
      · rintro ⟨m2, hm2, hdm⟩
        exact ⟨m2, List.mem_append_left _ hm2, hdm⟩
      · rintro ⟨m2, hm2, hdm⟩
        rcases List.mem_append.mp hm2 with hin | hin
        · exact ⟨m2, hin, hdm⟩
        · rcases List.mem_singleton.mp hin with rfl
          exact (hmem e).mp (hdm ▸ hd)
    · rw [if_neg hd, List.mem_append, hmem e, List.mem_singleton]
      constructor
      · rintro (⟨m2, hm2, hdm⟩ | he)
        · exact ⟨m2, List.mem_append_left _ hm2, hdm⟩
        · exact ⟨m, List.mem_append_right _ (List.mem_singleton.mpr rfl), he.symm⟩
      · rintro ⟨m2, hm2, hdm⟩
        rcases List.mem_append.mp hm2 with hin | hin
        · exact Or.inl ⟨m2, hin, hdm⟩
        · rcases List.mem_singleton.mp hin with rfl
          exact Or.inr hdm.symm
  · exact (flatten_insertDaily idx m.timestamp.date m).trans (hperm.append_right [m])
  · exact snd_ne_nil_insertDaily idx _ m hne

theorem foldl_insertDaily_inv :
    ∀ (rows P : List Measurement) (idx : List (Date × List Measurement)),
      IndexInv P idx →
      IndexInv (P ++ rows)
        (rows.foldl (fun idx m => insertDaily idx m.timestamp.date m) idx)
  | [], P, idx, h => by simpa using h
  | m :: rest, P, idx, h => by
      have h2 := insertDaily_inv P idx m h
      have h3 := foldl_insertDaily_inv rest (P ++ [m]) _ h2
      simpa [List.append_assoc] using h3

theorem IndexInv_nil : IndexInv [] [] := by
  refine ⟨fun e => rfl, List.nodup_nil, fun e => ?_, List.Perm.refl _,
    fun p hp => absurd hp (List.not_mem_nil p)⟩
  simp

theorem lookupDay_of_mem_nodup :
    ∀ (idx : List (Date × List Measurement)), (idx.map Prod.fst).Nodup →
      ∀ p ∈ idx, lookupDay idx p.1 = p.2 := by
  intro idx
  induction idx with
  | nil => intro _ p hp; exact absurd hp (List.not_mem_nil p)
  | cons q rest ih =>
      intro hnd p hp
      obtain ⟨k, l⟩ := q
      rcases List.mem_cons.mp hp with rfl | hmem
      · simp [lookupDay]
      · have hnd2 : (k :: rest.map Prod.fst).Nodup := hnd
        have hk : ¬ (k = p.1) := by
          intro hh
          have hin : p.1 ∈ rest.map Prod.fst := List.mem_map.mpr ⟨p, hmem, rfl⟩
          exact (List.nodup_cons.mp hnd2).1 (hh ▸ hin)
        simp only [lookupDay, if_neg hk]
        exact ih (List.nodup_cons.mp hnd2).2 p hmem

/-- C3: build_daily_index produces an exact partition: buckets are keyed by
the date part of the timestamps, each bucket is the input's filter to that
date (so bucket order matches input order and every measurement lands in
exactly one bucket), keys are pairwise distinct and exactly the dates that
occur, the buckets together are a permutation of the input, and no empty
bucket is created. -/
theorem build_daily_index_partition (rows : List Measurement) :
    ((build_daily_index rows).map Prod.fst).Nodup ∧
    (∀ e : Date, lookupDay (build_daily_index rows) e =
        rows.filter (fun m => decide (m.timestamp.date = e))) ∧
    (∀ e : Date, e ∈ (build_daily_index rows).map Prod.fst ↔
        ∃ m ∈ rows, m.timestamp.date = e) ∧
    (((build_daily_index rows).map Prod.snd).flatten).Perm rows ∧
    (∀ p ∈ build_daily_index rows,
        p.2 = rows.filter (fun m => decide (m.timestamp.date = p.1)) ∧
        p.2 ≠ ([] : List Measurement)) := by
  have h := foldl_insertDaily_inv rows [] [] IndexInv_nil
  rw [List.nil_append] at h
  obtain ⟨h1, h2, h3, h4, h5⟩ := h
  refine ⟨h2, h1, h3, h4, fun p hp => ⟨?_, h5 p hp⟩⟩
  rw [← h1 p.1]
  exact (lookupDay_of_mem_nodup _ h2 p hp).symm

theorem build_daily_index_partition_witness :
    lookupDay (build_daily_index exMonthRows) ⟨2025, 1, 2⟩ =
      exMonthRows.filter (fun m => decide (m.timestamp.date = ⟨2025, 1, 2⟩)) ∧
    (⟨2025, 1, 1⟩ : Date) ∈ (build_daily_index exMonthRows).map Prod.fst :=
  ⟨(build_daily_index_partition exMonthRows).2.1 ⟨2025, 1, 2⟩,
   ((build_daily_index_partition exMonthRows).2.2.1 ⟨2025, 1, 1⟩).mpr
     ⟨exM 1 10 0, by with_unfolding_all decide, by with_unfolding_all decide⟩⟩

/-- C6: read_data fails with the not-found error when the file is absent,
fails with a ValueError when a required column cannot be resolved from the
stripped header names (exact candidates first, then substring fallback, as
find_col does) or when the row loop parses zero rows; in every failure no
measurement list is returned, and a successful load is never empty. -/
theorem read_data_failure_modes :
    read_data none = Except.error ReadErr.fileNotFound ∧
    (∀ t : CsvTable, resolveCols (t.fieldnames.map stripStr) = none →
        read_data (some t) = Except.error ReadErr.valueError) ∧
    (∀ (t : CsvTable) (cols : String × String × String × String),
        resolveCols (t.fieldnames.map stripStr) = some cols →
        processRows t.fieldnames cols t.records = Except.ok [] →
        read_data (some t) = Except.error ReadErr.valueError) ∧
    (∀ (t : CsvTable) (ms : List Measurement),
        read_data (some t) = Except.ok ms → ms ≠ []) := by
  refine ⟨rfl, fun t h => ?_, fun t cols h1 h2 => ?_, fun t ms h => ?_⟩
  · simp only [read_data]
    rw [h]
  · simp only [read_data]
    rw [h1]
    simp [h2]
  · simp only [read_data] at h
    cases hr : resolveCols (t.fieldnames.map stripStr) with
    | none => rw [hr] at h; simp at h
    | some cols =>
        rw [hr] at h
        have h2 : (match processRows t.fieldnames cols t.records with
            | Except.error e => (Except.error e : Except ReadErr (List Measurement))
            | Except.ok ms0 =>
                if ms0 = [] then Except.error ReadErr.valueError else Except.ok ms0) =
            Except.ok ms := h
        cases hp : processRows t.fieldnames cols t.records with
        | error e => rw [hp] at h2; simp at h2
        | ok ms0 =>
            rw [hp] at h2
            by_cases hm : ms0 = []
            · simp [hm] at h2
            · simp [hm] at h2
              exact h2 ▸ hm

theorem read_data_failure_modes_witness :
    read_data (some ⟨["timestamp", "consumption", "production"], []⟩) =
      Except.error ReadErr.valueError ∧
    read_data (some ⟨["timestamp", "consumption", "production", "temperature"], []⟩) =
      Except.error ReadErr.valueError :=
  ⟨read_data_failure_modes.2.1 ⟨["timestamp", "consumption", "production"], []⟩
      (by with_unfolding_all decide),
   read_data_failure_modes.2.2.1 ⟨["timestamp", "consumption", "production", "temperature"], []⟩
      ("timestamp", "consumption", "production", "temperature")
      (by with_unfolding_all decide) (by with_unfolding_all rfl)⟩

theorem processRows_error_of_bad_time (fieldnames : List String)
    (cols : String × String × String × String) :
    ∀ (records : List (List String)) (r : List String), r ∈ records →
      timeCellStr fieldnames cols.1 r ≠ "" →
      parseIso (timeCellStr fieldnames cols.1 r) = none →
      ∃ e, processRows fieldnames cols records = Except.error e := by
  intro records
  induction records with
  | nil => intro r hr; exact absurd hr (List.not_mem_nil r)
  | cons r0 rest ih =>
      intro r hr hne hbad
      rcases List.mem_cons.mp hr with rfl | hmem
      · refine ⟨ReadErr.valueError, ?_⟩
        unfold processRows
        rw [if_neg hne, hbad]
      · by_cases h0 : timeCellStr fieldnames cols.1 r0 = ""
        · obtain ⟨e, he⟩ := ih r hmem hne hbad
          refine ⟨e, ?_⟩
          unfold processRows
          rw [if_pos h0]
          exact he
        · unfold processRows
          rw [if_neg h0]
          rcases hts : parseIso (timeCellStr fieldnames cols.1 r0) with _ | ts
          · exact ⟨ReadErr.valueError, rfl⟩
          · rcases hc : parse_float_fi (numCellStr fieldnames cols.2.1 r0) with _ | c
            · exact ⟨ReadErr.valueError, rfl⟩
            · rcases hp : parse_float_fi (numCellStr fieldnames cols.2.2.1 r0) with _ | p
              · exact ⟨ReadErr.valueError, rfl⟩
              · rcases ht : parse_float_fi (numCellStr fieldnames cols.2.2.2 r0) with _ | tp
                · exact ⟨ReadErr.valueError, rfl⟩
                · obtain ⟨e, he⟩ := ih r hmem hne hbad
                  rw [he]
                  exact ⟨e, rfl⟩

/-- C10 (implicit): a row whose timestamp cell is non-empty but not a valid
ISO date-time makes read_data raise, aborting the whole load with no
measurements returned; only rows whose timestamp cell strips to empty are
silently skipped. -/
theorem read_data_invalid_timestamp_aborts :
    (∀ (t : CsvTable) (cols : String × String × String × String) (r : List String),
        resolveCols (t.fieldnames.map stripStr) = some cols →
        r ∈ t.records →
        timeCellStr t.fieldnames cols.1 r ≠ "" →
        parseIso (timeCellStr t.fieldnames cols.1 r) = none →
        ∃ e, read_data (some t) = Except.error e) ∧
    (∀ (fieldnames : List String) (cols : String × String × String × String)
        (r : List String) (rest : List (List String)),
        timeCellStr fieldnames cols.1 r = "" →
        processRows fieldnames cols (r :: rest) = processRows fieldnames cols rest) := by
  constructor
  · intro t cols r hcols hmem hne hbad
    obtain ⟨e, he⟩ := processRows_error_of_bad_time t.fieldnames cols t.records r hmem hne hbad
    refine ⟨e, ?_⟩
    simp only [read_data]
    rw [hcols]
    simp [he]
  · intro fieldnames cols r rest h
    rw [processRows.eq_def]
    simp [h]

theorem read_data_invalid_timestamp_aborts_witness :
    (∃ e, read_data (some ⟨["timestamp", "consumption", "production", "temperature"],
        [["banana", "1", "2", "3"]]⟩) = Except.error e) ∧
    processRows ["timestamp", "consumption", "production", "temperature"]
        ("timestamp", "consumption", "production", "temperature")
        [["", "1", "2", "3"], ["2025-01-01T00:00:00", "1", "2", "3"]] =
      processRows ["timestamp", "consumption", "production", "temperature"]
        ("timestamp", "consumption", "production", "temperature")
        [["2025-01-01T00:00:00", "1", "2", "3"]] :=
  ⟨read_data_invalid_timestamp_aborts.1
      ⟨["timestamp", "consumption", "production", "temperature"], [["banana", "1", "2", "3"]]⟩
      ("timestamp", "consumption", "production", "temperature") ["banana", "1", "2", "3"]
      (by with_unfolding_all decide) (by with_unfolding_all decide)
      (by with_unfolding_all decide) (by with_unfolding_all decide),
   read_data_invalid_timestamp_aborts.2 _ _ _ _ (by with_unfolding_all decide)⟩
